import Mathlib

/-!
Shallow embedding of the shiptracktele shipment-tracking core: the status
normalizer (`app/common/normalizer.py`), the shipment store
(`app/common/store.py`), the carrier adapters (`app/carriers/*.py`) and the
refresh orchestrator (`server/main.py`).  Machine-level details that no claim
depends on (wall-clock time, SQL wire format, timezone re-rendering of ISO
strings, Python's salted string hash, random draws) are passed in as explicit
parameters so every definition is a pure, executable function.
-/

namespace ShipTrack

/-! ### Python string helpers -/

/-- Python truthiness of an optional string: `None` and `""` are falsy. -/
def pyTruthy : Option String → Bool
  | none => false
  | some s => s ≠ ""

/-- Python `a or b` where `a` is an optional string and `b` a string:
returns `a` when it is truthy, otherwise `b`. -/
def orElseStr (a : Option String) (b : String) : String :=
  match a with
  | none => b
  | some s => if s = "" then b else s

/-- Lower-casing of a string, as Python `str.lower` on the ASCII-range
status tokens the program uses. -/
def pyLower (s : String) : String := String.mk (s.toList.map Char.toLower)

/-- Does the character list start with the given needle? (Python prefix test.) -/
def startsWith : List Char → List Char → Bool
  | [], _ => true
  | _ :: _, [] => false
  | a :: as, b :: bs => a == b && startsWith as bs

/-- Does the needle occur as a contiguous run inside the haystack? -/
def occursIn (needle : List Char) : List Char → Bool
  | [] => startsWith needle []
  | c :: cs => startsWith needle (c :: cs) || occursIn needle cs

/-- Python `needle in hay` substring test. -/
def pyContains (hay needle : String) : Bool := occursIn needle.toList hay.toList

/-- Python `str.isdigit` on the strings this program feeds it. -/
def pyIsDigit (s : String) : Bool := s ≠ "" && s.toList.all Char.isDigit

/-- Python `str.strip`: drop whitespace from both ends. -/
def pyStrip (s : String) : String :=
  String.mk
    (((s.toList.dropWhile Char.isWhitespace).reverse.dropWhile
        Char.isWhitespace).reverse)

/-! ### Stable descending sort (Python `sorted(..., reverse=True)` / `list.sort(..., reverse=True)`)

Python's sort is stable; with `reverse=True` elements comparing equal keep
their input order.  We model it with an insertion sort that inserts each new
element after all already-placed elements of greater-or-equal key. -/

section Sorting

variable {α : Type} {β : Type} [LinearOrder β]

/-- Insert `x` into a descending-sorted list, after all elements whose key is
greater than or equal to `key x` (stability for `reverse=True`). -/
def insDesc (key : α → β) (x : α) : List α → List α
  | [] => [x]
  | y :: ys => if key y < key x then x :: y :: ys else y :: insDesc key x ys

/-- Stable sort by `key`, descending: Python `sorted(l, key=key, reverse=True)`. -/
def pySortedDesc (key : α → β) (l : List α) : List α :=
  l.foldl (fun acc x => insDesc key x acc) []

/-- First element of maximal key, scanning left to right (ties keep the
earlier element). -/
def firstMaxAcc (key : α → β) (l : List α) (a : α) : α :=
  l.foldl (fun m x => if key m < key x then x else m) a

/-- `firstMaxAcc` over a possibly-empty list. -/
def firstMax? (key : α → β) : List α → Option α
  | [] => none
  | x :: xs => some (firstMaxAcc key xs x)

theorem insDesc_cons (key : α → β) (x h : α) (t : List α) :
    insDesc key x (h :: t) =
      if key h < key x then x :: h :: t else h :: insDesc key x t := rfl

theorem head_foldl_insDesc (key : α → β) :
    ∀ (xs : List α) (h : α) (t : List α),
      (List.foldl (fun acc x => insDesc key x acc) (h :: t) xs).head? =
        some (firstMaxAcc key xs h) := by
  intro xs
  induction xs with
  | nil => intro h t; rfl
  | cons x xs ih =>
      intro h t
      show (List.foldl (fun acc x => insDesc key x acc) (insDesc key x (h :: t)) xs).head? = _
      rw [insDesc_cons]
      by_cases hlt : key h < key x
      · simp only [hlt, if_pos, if_true]
        rw [ih x (h :: t)]
        simp [firstMaxAcc, hlt]
      · simp only [hlt, if_false, if_neg]
        rw [ih h (insDesc key x t)]
        simp [firstMaxAcc, hlt]

/-- The head of the stable descending sort is the first input element of
maximal key. -/
theorem head_pySortedDesc (key : α → β) (l : List α) :
    (pySortedDesc key l).head? = firstMax? key l := by
  cases l with
  | nil => rfl
  | cons x xs =>
      show (List.foldl (fun acc y => insDesc key y acc) (insDesc key x []) xs).head? = _
      exact head_foldl_insDesc key xs x []

theorem insDesc_perm (key : α → β) (x : α) :
    ∀ l : List α, List.Perm (insDesc key x l) (x :: l) := by
  intro l
  induction l with
  | nil => rfl
  | cons y ys ih =>
      rw [insDesc_cons]
      by_cases hlt : key y < key x
      · simp [hlt]
      · simp only [hlt, if_neg, if_false]
        exact (List.Perm.cons y ih).trans (List.Perm.swap x y ys)

theorem foldl_insDesc_perm (key : α → β) :
    ∀ (xs acc : List α),
      List.Perm (List.foldl (fun acc x => insDesc key x acc) acc xs) (xs ++ acc) := by
  intro xs
  induction xs with
  | nil => intro acc; simp
  | cons x xs ih =>
      intro acc
      show List.Perm (List.foldl (fun acc x => insDesc key x acc) (insDesc key x acc) xs) _
      exact ((ih (insDesc key x acc)).trans
        (List.Perm.append_left xs (insDesc_perm key x acc))).trans List.perm_middle

/-- The stable descending sort is a permutation of its input. -/
theorem pySortedDesc_perm (key : α → β) (l : List α) :
    List.Perm (pySortedDesc key l) l := by
  have h := foldl_insDesc_perm key l []
  simpa [pySortedDesc] using h

theorem mem_insDesc (key : α → β) (x a : α) (l : List α) :
    a ∈ insDesc key x l ↔ a ∈ x :: l :=
  (insDesc_perm key x l).mem_iff

/-- `insDesc` preserves descending sortedness. -/
theorem insDesc_pairwise (key : α → β) (x : α) :
    ∀ l : List α, List.Pairwise (fun a b => key b ≤ key a) l →
      List.Pairwise (fun a b => key b ≤ key a) (insDesc key x l) := by
  intro l
  induction l with
  | nil => intro _; exact List.pairwise_singleton _ x
  | cons y ys ih =>
      intro hp
      rcases List.pairwise_cons.mp hp with ⟨hy, hys⟩
      rw [insDesc_cons]
      by_cases hlt : key y < key x
      · simp only [hlt, if_pos, if_true]
        refine List.pairwise_cons.mpr ⟨?_, hp⟩
        intro z hz
        rcases List.mem_cons.mp hz with hz | hz
        · subst hz; exact le_of_lt hlt
        · exact le_trans (hy z hz) (le_of_lt hlt)
      · simp only [hlt, if_neg, if_false]
        refine List.pairwise_cons.mpr ⟨?_, ih hys⟩
        intro z hz
        rcases List.mem_cons.mp ((mem_insDesc key x z ys).mp hz) with hz | hz
        · subst hz; exact le_of_not_lt hlt
        · exact hy z hz

theorem foldl_insDesc_pairwise (key : α → β) :
    ∀ (xs acc : List α), List.Pairwise (fun a b => key b ≤ key a) acc →
      List.Pairwise (fun a b => key b ≤ key a)
        (List.foldl (fun acc x => insDesc key x acc) acc xs) := by
  intro xs
  induction xs with
  | nil => intro acc h; exact h
  | cons x xs ih =>
      intro acc h
      exact ih (insDesc key x acc) (insDesc_pairwise key x acc h)

/-- The stable descending sort output is sorted by non-increasing key. -/
theorem pySortedDesc_pairwise (key : α → β) (l : List α) :
    List.Pairwise (fun a b => key b ≤ key a) (pySortedDesc key l) :=
  foldl_insDesc_pairwise key l [] List.Pairwise.nil

end Sorting

/-! ### Status normalizer (`app/common/normalizer.py`) -/

def CREATED : String := "CREATED"

def PICKED_UP : String := "PICKED_UP"

def IN_TRANSIT : String := "IN_TRANSIT"

def OUT_FOR_DELIVERY : String := "OUT_FOR_DELIVERY"

def DELIVERED : String := "DELIVERED"

def EXCEPTION : String := "EXCEPTION"

/-- A vendor-event dictionary: the keys the adapters emit and `unify` reads.
`none` stands for an absent key (or a stored Python `None`). -/
structure VendorDict where
  code : Option String := none
  status : Option String := none
  text : Option String := none
  desc : Option String := none
  location : Option String := none
  time : Option String := none
  time_iso : Option String := none
  deriving DecidableEq, Repr

structure UnifiedEvent where
  code : String
  text : String
  location : Option String
  time_iso : Option String
  raw : VendorDict
  deriving DecidableEq, Repr

structure UnifiedTrack where
  carrier : String
  tracking_code : String
  latest : UnifiedEvent
  deriving DecidableEq, Repr

def GHN_MAP : List (String × String) :=
  [("ready_to_pick", PICKED_UP), ("in_transit", IN_TRANSIT),
   ("delivery", OUT_FOR_DELIVERY), ("delivered", DELIVERED),
   ("delivery_fail", EXCEPTION)]

def SPX_MAP : List (String × String) :=
  [("PICKED", PICKED_UP), ("TRANSIT", IN_TRANSIT), ("OFD", OUT_FOR_DELIVERY),
   ("DLV", DELIVERED), ("FAIL", EXCEPTION)]

def VTP_MAP : List (String × String) :=
  [("PICKUP_SUCCESS", PICKED_UP), ("TRANSPORT", IN_TRANSIT),
   ("DELIVERING", OUT_FOR_DELIVERY), ("DELIVERED", DELIVERED),
   ("RETURN", EXCEPTION)]

/-- `CARRIER_MAP.get(carrier, {})`. -/
def CARRIER_MAP (carrier : String) : List (String × String) :=
  if carrier = "ghn" then GHN_MAP
  else if carrier = "spx" then SPX_MAP
  else if carrier = "vtp" then VTP_MAP
  else []

/-- `vendor_event.get("code") or vendor_event.get("status") or "unknown"`. -/
def codeRaw (ve : VendorDict) : String :=
  orElseStr ve.code (orElseStr ve.status "unknown")

/-- `unify(carrier, tracking_code, vendor_event)`: look the raw code up in the
carrier's table; if absent (or falsy), fall back to `EXCEPTION` when the
lowered raw code contains `"fail"`, else `IN_TRANSIT`. -/
def unify (carrier : String) (tracking_code : String) (ve : VendorDict) :
    UnifiedTrack :=
  let code_raw := codeRaw ve
  let text := orElseStr ve.text (orElseStr ve.desc code_raw)
  let location := ve.location
  let time_iso := ve.time
  let code_unified :=
    match (CARRIER_MAP carrier).lookup code_raw with
    | some m => if m = "" then
        (if pyContains (pyLower code_raw) "fail" then EXCEPTION else IN_TRANSIT)
      else m
    | none =>
        if pyContains (pyLower code_raw) "fail" then EXCEPTION else IN_TRANSIT
  { carrier := carrier,
    tracking_code := tracking_code,
    latest := { code := code_unified, text := text, location := location,
                time_iso := time_iso, raw := ve } }

/-! ### Shipment store (`app/common/store.py`)

A row of the `shipments` table.  `created_at`/`updated_at` and the
`last_*` cells are ISO strings; `last_checkpoint_time` and `last_location`
may hold SQL `NULL` (an inserted Python `None`), modelled as `none`. -/

structure Shipment where
  id : Nat
  label : String
  carrier : String
  tracking_code : String
  last_status_code : String
  last_status_text : String
  last_checkpoint_time : Option String
  last_location : Option String
  auto_poll : Nat
  created_at : String
  updated_at : String
  deriving DecidableEq, Repr

/-- The store is the `shipments` table in insertion order. -/
abbrev Store : Type := List Shipment

/-- `SELECT * FROM shipments ORDER BY id DESC` (`list_shipments`). -/
def list_shipments (st : Store) : List Shipment :=
  pySortedDesc (fun r => r.id) st

/-- The id `BIGSERIAL` assigns to the next inserted row. -/
def nextId (st : Store) : Nat :=
  (st.foldl (fun m r => max m r.id) 0) + 1

/-- `add_shipment`: `INSERT ... ON CONFLICT (tracking_code) DO NOTHING`.
If a row with the tracking code exists, the insert is ignored; otherwise a
fresh row is appended with the unified event's fields and `auto_poll = 1`. -/
def add_shipment (st : Store) (label carrier code : String)
    (unified : UnifiedTrack) (now : String) : Store :=
  if st.any (fun r => r.tracking_code == code) then st
  else
    st ++ [{ id := nextId st,
             label := if label = "" then "(Không tên)" else label,
             carrier := carrier,
             tracking_code := code,
             last_status_code := unified.latest.code,
             last_status_text := unified.latest.text,
             last_checkpoint_time := unified.latest.time_iso,
             last_location := unified.latest.location,
             auto_poll := 1,
             created_at := now,
             updated_at := now }]

/-- `update_shipment_from_unified(shipment_id, unified)`: read the row, compute
`changed` by comparing the four `last_*` cells with the unified event, then
unconditionally run the `UPDATE` that rewrites those cells and `updated_at`.
Returns the `changed` flag and the new table. -/
def update_shipment_from_unified (st : Store) (shipment_id : Nat)
    (unified : UnifiedTrack) (now : String) : Bool × Store :=
  match st.find? (fun r => r.id == shipment_id) with
  | none => (false, st)
  | some before =>
      let new_code := unified.latest.code
      let new_text := unified.latest.text
      let new_time := unified.latest.time_iso
      let new_loc := unified.latest.location
      let changed :=
        (before.last_status_code != new_code)
        || (before.last_status_text != new_text)
        || (before.last_checkpoint_time != new_time)
        || (before.last_location != new_loc)
      let st' := st.map (fun r =>
        if r.id == shipment_id then
          { r with last_status_code := new_code, last_status_text := new_text,
                   last_checkpoint_time := new_time, last_location := new_loc,
                   updated_at := now }
        else r)
      (changed, st')

/-! ### GHN adapter (`app/carriers/ghn.py`)

The single outbound request is abstracted to its outcome.  `_to_iso` either
returns `""` on a falsy input or a re-rendering of the same instant (the
input text on parse failure); the re-rendering is modelled as the identity on
the timestamp text — no claim depends on it. -/

structure GhnLog where
  action_at : Option String := none
  status : Option String := none
  status_name : Option String := none
  location_address : Option String := none
  deriving DecidableEq, Repr

structure GhnPayload where
  tracking_logs : List GhnLog := []
  deriving DecidableEq, Repr

/-- Parsed response body.  `dict`'s `payload` is `none` when `data.get("data")`
is falsy (absent, `None` or empty); `message` is the `"message"` key. -/
inductive GhnBody where
  | empty : GhnBody
  | badJson : GhnBody
  | notDict : GhnBody
  | dict (code : Option Int) (payload : Option GhnPayload)
      (message : Option String) : GhnBody
  deriving DecidableEq, Repr

/-- Outcome of the one `requests.post` call plus body parsing: either some
exception was raised (timeout, transport error, malformed JSON — all caught
by the enclosing `try`), or a response with a status code and body arrived. -/
inductive GhnOutcome where
  | exception (name : String) : GhnOutcome
  | http (statusCode : Nat) (body : GhnBody) : GhnOutcome
  deriving DecidableEq, Repr

def STATUS_TEXT : List (String × String) :=
  [("ready_to_pick", "Chờ lấy hàng"), ("picking", "Đang lấy hàng"),
   ("picked", "Đã lấy hàng"), ("storing", "Đang lưu kho"),
   ("transporting", "Đang luân chuyển"), ("sorting", "Đang phân loại"),
   ("delivering", "Đang giao hàng"), ("delivered", "Giao hàng thành công"),
   ("delivery_fail", "Giao hàng thất bại"),
   ("waiting_to_return", "Chờ trả hàng"), ("returned", "Đã trả hàng")]

/-- `_event(code, text, time_iso, location)`: the GHN event dictionary has the
keys `code`, `text`, `time_iso`, `location` — and no `time` key. -/
def ghnEvent (code text time_iso location : String) : VendorDict :=
  { code := some code, text := some text, time_iso := some time_iso,
    location := some location }

/-- `_mock_latest(reason)`: the synthetic fallback event. -/
def ghnMockLatest (now reason : String) : VendorDict :=
  ghnEvent "delivered" ("Giao hàng thành công (mock GHN) – " ++ reason) now
    "Việt Nam"

/-- `_to_iso(ts)` (re-rendering abstracted to the identity on the text). -/
def ghnToIso (ts : Option String) : String :=
  match ts with
  | none => ""
  | some s => s

/-- Sort key of a GHN tracking log: `x.get("action_at") or ""`. -/
def ghnKey (l : GhnLog) : String := (orElseStr l.action_at "")

/-- Build the vendor event from the freshest tracking log
(`sorted(logs, key=..., reverse=True)[0]` and the field extraction below it). -/
def ghnFromLog (latest : GhnLog) : VendorDict :=
  let status_code := pyStrip (orElseStr latest.status (orElseStr latest.status_name ""))
  let status_text :=
    match STATUS_TEXT.lookup status_code with
    | some t => t
    | none => orElseStr latest.status_name
        (if status_code = "" then "Không xác định" else status_code)
  let location := pyStrip (orElseStr latest.location_address "")
  ghnEvent status_code status_text (ghnToIso latest.action_at) location

/-- The `data.get("code") != 200 / not data.get("data") / no logs / success`
block of `ghn.get_tracking`, for a dict-shaped JSON body. -/
def ghnHandleDict (now : String) (code : Option Int)
    (payload : Option GhnPayload) (message : Option String) : VendorDict :=
  if code ≠ some 200 then ghnMockLatest now (message.getD "no data")
  else
    match payload with
    | none => ghnMockLatest now (message.getD "no data")
    | some p =>
        match pySortedDesc ghnKey p.tracking_logs with
        | [] => ghnMockLatest now "no logs"
        | latest :: _ => ghnFromLog latest

/-- The body-handling block of `ghn.get_tracking` (runs when the HTTP status
was below 400). -/
def ghnHandleBody (now : String) : GhnBody → VendorDict
  | .empty => ghnMockLatest now "no content"
  | .badJson => ghnMockLatest now "exception: JSONDecodeError"
  | .notDict => ghnMockLatest now "no data"
  | .dict code payload message => ghnHandleDict now code payload message

/-- `ghn.get_tracking`: every failure branch returns `_mock_latest`; the
success branch extracts the freshest log. -/
def ghnGetTracking (now : String) (o : GhnOutcome) : VendorDict :=
  match o with
  | .exception name => ghnMockLatest now ("exception: " ++ name)
  | .http statusCode body =>
      if statusCode = 403 || statusCode = 404 || statusCode = 429 then
        ghnMockLatest now ("HTTP " ++ toString statusCode)
      else if 400 ≤ statusCode then
        ghnMockLatest now ("HTTP " ++ toString statusCode)
      else ghnHandleBody now body

/-- Is the dict-shaped body a failure (wrong code, falsy data, or no logs)? -/
def ghnDictFailure (code : Option Int) (payload : Option GhnPayload) : Bool :=
  decide (code ≠ some 200) ||
    (match payload with
     | none => true
     | some p => p.tracking_logs.isEmpty)

/-- Is the body a failure once the status was acceptable? -/
def ghnBodyFailure : GhnBody → Bool
  | .empty => true
  | .badJson => true
  | .notDict => true
  | .dict code payload _ => ghnDictFailure code payload

/-- The failure outcomes of the GHN call: a raised exception, an HTTP status
of 400 or above, an empty body, malformed JSON, a non-dict or non-success
payload, or an empty log list. -/
def ghnFailure : GhnOutcome → Bool
  | .exception _ => true
  | .http statusCode body => decide (400 ≤ statusCode) || ghnBodyFailure body

/-! ### J&T adapter checkpoint selection (`app/carriers/jnt.py`, `_latest_event`)

A checkpoint's sort key is `datetime.fromisoformat(date + "T" + time)`, and
`datetime.min` when the pair is missing or unparseable.  Instants are
modelled as `Nat` with the missing/unparseable key as `none`, read as the
bottom value 0. -/

structure JntCheckpoint where
  pts : Option Nat := none
  description : String := ""
  deriving DecidableEq, Repr

def jntKey (c : JntCheckpoint) : Nat := c.pts.getD 0

/-- The checkpoint `sorted(events, key=key, reverse=True)[0]` picks
(`none` for an empty list, where the source substitutes a default event). -/
def jntLatestChoice (events : List JntCheckpoint) : Option JntCheckpoint :=
  (pySortedDesc jntKey events).head?

/-- The log `sorted(logs, key=..., reverse=True)[0]` picks in `ghn.get_tracking`. -/
def ghnLatestChoice (logs : List GhnLog) : Option GhnLog :=
  (pySortedDesc ghnKey logs).head?

/-! ### SPX adapter checkpoint selection (`app/carriers/spx.py`,
`_latest_event_from_payload`) -/

structure SpxRecord where
  display_flag : Option Int := none
  actual_time : Option Nat := none
  tracking_name : String := ""
  deriving DecidableEq, Repr

/-- `r.get("actual_time") or 0`. -/
def spxKey (r : SpxRecord) : Nat := r.actual_time.getD 0

/-- `visible = [r for r in records if r.get("display_flag", 1) == 1]`,
`src = visible if visible else records`. -/
def spxSrc (records : List SpxRecord) : List SpxRecord :=
  let visible := records.filter (fun r => r.display_flag.getD 1 == 1)
  if visible.isEmpty then records else visible

/-- The record `src.sort(key=..., reverse=True); src[0]` picks. -/
def spxLatestChoice (records : List SpxRecord) : Option SpxRecord :=
  (pySortedDesc spxKey (spxSrc records)).head?

/-! ### Mock adapter (`app/carriers/mock.py`)

`hash(tracking_code)` is salted per process; its absolute value is passed in
as `h`.  `random.choice([0, 0, 1])` is a uniform draw of an index into
`[0, 0, 1]`, passed in as `b : Fin 3`; the drawn value is `1` only for
index 2.  City and event-time draws are passed in likewise. -/

def mockStates : List (String × String) :=
  [("ready_to_pick", "Đã tạo vận đơn"), ("in_transit", "Đang trung chuyển"),
   ("delivery", "Đang giao"), ("delivered", "Đã giao")]

def mockCities : List String :=
  ["Hà Nội", "Đà Nẵng", "TP.HCM", "Cần Thơ", "Nha Trang"]

/-- The value of `random.choice([0, 0, 1])` when the drawn index is `b`. -/
def bumpVal (b : Fin 3) : Nat := if b.val = 2 then 1 else 0

/-- `idx = min(base + random.choice([0, 0, 1]), 3)` with `base = abs(hash(code)) % 4`. -/
def mockIdx (h : Nat) (b : Fin 3) : Nat := min (h % 4 + bumpVal b) 3

/-- The status bucket `_STATES[idx]["code"]` of `mock.get_tracking`. -/
def mockStatusCode (h : Nat) (b : Fin 3) : String :=
  (mockStates.getD (mockIdx h b) ("", "")).1

/-- `mock.get_tracking` as the vendor event it returns. -/
def mockGetTracking (h : Nat) (b : Fin 3) (city : Fin 5) (timeStr : String) :
    VendorDict :=
  { code := some (mockStates.getD (mockIdx h b) ("", "")).1,
    text := some (mockStates.getD (mockIdx h b) ("", "")).2,
    location := some (mockCities.getD city.val ""),
    time := some timeStr }

/-! ### Orchestrator (`server/main.py`) -/

/-- The keys of the `CARRIERS` dispatch table. -/
def CARRIERS_KEYS : List String := ["mock", "ghn", "spx", "vtp", "jnt"]

def DEFAULT_CARRIER_FOR_UNIFY (c : String) : String :=
  if c = "mock" then "ghn" else c

/-- `not jnt_phone4 or not (jnt_phone4.isdigit() and len(jnt_phone4) == 4)`
negated: the credential is present, all digits and exactly 4 long. -/
def validPhone4 (phone4 : Option String) : Bool :=
  match phone4 with
  | none => false
  | some p => pyTruthy (some p) && (pyIsDigit p && p.length == 4)

/-- What `_get_vendor_event(carrier, code, jnt_phone4)` does before returning:
raise for an unknown carrier, raise for a missing/malformed J&T credential,
or issue the one outbound adapter call. -/
inductive FetchAction where
  | errUnknownCarrier : FetchAction
  | errInvalidCredential (msg : String) : FetchAction
  | callAdapter (carrier code phone : String) : FetchAction
  deriving DecidableEq, Repr

/-- `_get_vendor_event`. -/
def getVendorEvent (carrier code : String) (jnt_phone4 : Option String) :
    FetchAction :=
  let c := pyLower carrier
  if ¬ (c ∈ CARRIERS_KEYS) then .errUnknownCarrier
  else if c = "jnt" then
    if ¬ validPhone4 jnt_phone4 then
      .errInvalidCredential "J&T cần 4 số cuối điện thoại (phone4)."
    else .callAdapter "jnt" code (jnt_phone4.getD "")
  else .callAdapter c code ""

/-- Number of outbound network requests a `FetchAction` performs. -/
def netCalls : FetchAction → Nat
  | .callAdapter _ _ _ => 1
  | _ => 0

/-- `_refresh_one_and_maybe_notify(row)`: skip J&T, fetch (the adapter outcome
for the shipment's id is `fetch d.id`; `none` models any raised exception,
which the enclosing `try` turns into `False`), normalize, update.  Returns
the `changed` flag and the table after the call. -/
def refreshOne (fetch : Nat → Option VendorDict) (now : String) (st : Store)
    (d : Shipment) : Bool × Store :=
  if d.carrier == "jnt" then (false, st)
  else
    match fetch d.id with
    | none => (false, st)
    | some ve =>
        let unified := unify (DEFAULT_CARRIER_FOR_UNIFY d.carrier)
          d.tracking_code ve
        update_shipment_from_unified st d.id unified now

/-- One iteration of the `refresh_all_job` loop: thread the table, count the
changed shipments. -/
def refreshStep (fetch : Nat → Option VendorDict) (now : String)
    (acc : Nat × Store) (r : Shipment) : Nat × Store :=
  let p := refreshOne fetch now acc.2 r
  (acc.1 + (if p.1 then 1 else 0), p.2)

/-- `refresh_all_job`: iterate the rows with `auto_poll = 1`, counting the
changed ones; returns the count and the final table. -/
def refresh_all_job (fetch : Nat → Option VendorDict) (now : String)
    (st : Store) : Nat × Store :=
  let rows := st.filter (fun r => r.auto_poll == 1)
  rows.foldl (refreshStep fetch now) (0, st)

/-- The `changed` flag `_refresh_one_and_maybe_notify` would report for row
`r` against the table `st`. -/
def itemChanged (fetch : Nat → Option VendorDict) (now : String) (st : Store)
    (r : Shipment) : Bool :=
  if r.carrier == "jnt" then false
  else
    match fetch r.id with
    | none => false
    | some ve =>
        (update_shipment_from_unified st r.id
          (unify (DEFAULT_CARRIER_FOR_UNIFY r.carrier) r.tracking_code ve)
          now).1

/-! ## Claims -/

/-- C2, counterexample: for carrier `ghn` the vendor code `"weird"` is absent
from the mapping table and the vendor text `"failed delivery"` contains the
failure keyword `"fail"`, yet `unify` returns `IN_TRANSIT`, not `EXCEPTION`:
the fallback inspects only the vendor code, never the text. -/
theorem c2_counterexample :
    (CARRIER_MAP "ghn").lookup
        (codeRaw { code := some "weird", text := some "failed delivery" }) = none
    ∧ pyContains (pyLower "failed delivery") "fail" = true
    ∧ (unify "ghn" "X"
        { code := some "weird", text := some "failed delivery" }).latest.code
        ≠ EXCEPTION := by
  refine ⟨rfl, rfl, ?_⟩
  decide

/-- C2 (amended): for every carrier and vendor event whose raw code is absent
from the carrier's table, `unify` never raises (it is total) and yields
`EXCEPTION` exactly when the lowered vendor *code* contains the substring
`"fail"` — the vendor text is not consulted — and `IN_TRANSIT` otherwise. -/
theorem c2_fallback_exception_iff_code_fail (carrier tc : String)
    (ve : VendorDict)
    (habsent : (CARRIER_MAP carrier).lookup (codeRaw ve) = none) :
    ((unify carrier tc ve).latest.code = EXCEPTION ↔
      pyContains (pyLower (codeRaw ve)) "fail" = true)
    ∧ ((unify carrier tc ve).latest.code = EXCEPTION ∨
       (unify carrier tc ve).latest.code = IN_TRANSIT) := by
  by_cases h : pyContains (pyLower (codeRaw ve)) "fail" = true
  · constructor
    · constructor
      · intro _; exact h
      · intro _; simp [unify, habsent, h]
    · left; simp [unify, habsent, h]
  · constructor
    · constructor
      · intro hx
        exfalso
        simp only [unify, habsent] at hx
        rw [if_neg h] at hx
        exact absurd hx (by decide)
      · intro hx; exact absurd hx h
    · right; simp [unify, habsent, h]

/-- C2 witness: the fallback evaluated at carrier `ghn` and the unmapped
vendor code `"lost"`. -/
theorem c2_witness :
    ((unify "ghn" "X" { code := some "lost" }).latest.code = EXCEPTION ↔
      pyContains (pyLower (codeRaw { code := some "lost" })) "fail" = true)
    ∧ ((unify "ghn" "X" { code := some "lost" }).latest.code = EXCEPTION ∨
       (unify "ghn" "X" { code := some "lost" }).latest.code = IN_TRANSIT) :=
  c2_fallback_exception_iff_code_fail "ghn" "X" { code := some "lost" } rfl

/-- C3, counterexample: two J&T checkpoints whose date/time pairs are missing
(both sort keys are `datetime.min`).  The stable `reverse=True` sort keeps the
input order among equal keys, so `_latest_event` picks the FIRST checkpoint of
the list, not the last one as the claim states. -/
theorem c3_counterexample :
    jntLatestChoice
        [{ pts := none, description := "older" },
         { pts := none, description := "newer" }] =
      some { pts := none, description := "older" }
    ∧ jntLatestChoice
        [{ pts := none, description := "older" },
         { pts := none, description := "newer" }] ≠
      some { pts := none, description := "newer" } := by
  constructor
  · rfl
  · decide

/-- C3 (amended): each adapter picks the checkpoint with the maximum
timestamp, and among equal timestamps the EARLIEST one in input order; a
missing timestamp sorts as the minimum, so a list with all timestamps missing
yields the first checkpoint, not the last. -/
theorem c3_latest_is_first_max :
    (∀ events : List JntCheckpoint,
      jntLatestChoice events = firstMax? jntKey events)
    ∧ (∀ logs : List GhnLog, ghnLatestChoice logs = firstMax? ghnKey logs)
    ∧ (∀ records : List SpxRecord,
        spxLatestChoice records = firstMax? spxKey (spxSrc records)) :=
  ⟨fun events => head_pySortedDesc jntKey events,
   fun logs => head_pySortedDesc ghnKey logs,
   fun records => head_pySortedDesc spxKey (spxSrc records)⟩

/-- C4, counterexample: the shipment with id 1 has the later `updated_at`,
but `list_shipments` puts the id-2 shipment first: the ordering is by
descending id, not by recency of update. -/
theorem c4_counterexample :
    (list_shipments
      [{ id := 1, label := "A", carrier := "ghn", tracking_code := "T1",
         last_status_code := "", last_status_text := "",
         last_checkpoint_time := none, last_location := none, auto_poll := 1,
         created_at := "c", updated_at := "2025-02-01" },
       { id := 2, label := "B", carrier := "ghn", tracking_code := "T2",
         last_status_code := "", last_status_text := "",
         last_checkpoint_time := none, last_location := none, auto_poll := 1,
         created_at := "c", updated_at := "2025-01-01" }]).head? =
      some { id := 2, label := "B", carrier := "ghn", tracking_code := "T2",
             last_status_code := "", last_status_text := "",
             last_checkpoint_time := none, last_location := none,
             auto_poll := 1, created_at := "c", updated_at := "2025-01-01" }
    ∧ ("2025-01-01" : String) ≠ "2025-02-01" := by
  constructor
  · rfl
  · decide

/-- C4 (amended): `list_shipments` returns exactly the stored shipments
(a permutation of the table) ordered by DESCENDING ID — creation order,
newest insert first — not by `updated_at`. -/
theorem c4_list_ordered_by_id_desc (st : Store) :
    List.Perm (list_shipments st) st
    ∧ List.Pairwise (fun a b => b.id ≤ a.id) (list_shipments st) :=
  ⟨pySortedDesc_perm (fun r : Shipment => r.id) st,
   pySortedDesc_pairwise (fun r : Shipment => r.id) st⟩

/-- C6: a J&T fetch whose auxiliary credential is missing, empty, non-numeric
or not exactly 4 digits fails with the invalid-credential error inside
`_get_vendor_event`, before the adapter is dispatched: no outbound network
request is issued. -/
theorem c6_invalid_credential_no_network (code : String)
    (phone4 : Option String) (h : validPhone4 phone4 = false) :
    getVendorEvent "jnt" code phone4 =
      FetchAction.errInvalidCredential "J&T cần 4 số cuối điện thoại (phone4)."
    ∧ netCalls (getVendorEvent "jnt" code phone4) = 0 := by
  have hl : pyLower "jnt" = "jnt" := by decide
  have hmem : ("jnt" ∈ CARRIERS_KEYS) := by decide
  constructor
  · simp [getVendorEvent, hl, hmem, h]
  · simp [getVendorEvent, hl, hmem, h, netCalls]

/-- C6 witness: the J&T fetch with the credential omitted. -/
theorem c6_witness :
    getVendorEvent "jnt" "859627154556" none =
      FetchAction.errInvalidCredential "J&T cần 4 số cuối điện thoại (phone4)."
    ∧ netCalls (getVendorEvent "jnt" "859627154556" none) = 0 :=
  c6_invalid_credential_no_network "859627154556" none rfl

/-- C9, counterexample: two calls of `mock.get_tracking` with the same
tracking code (same hash value 0) in the same run: the first draws index 0 of
`[0, 0, 1]`, the second index 2, and the returned status buckets differ
(`ready_to_pick` vs `in_transit`) — the bucket is not a function of the code
alone. -/
theorem c9_counterexample : mockStatusCode 0 0 ≠ mockStatusCode 0 2 := by
  decide

/-- C9 (amended): the mock status bucket is `min(base + b, 3)` where
`base = hash(code) % 4` is determined by the (per-run) hash of the code and
`b ∈ {0, 1}` is a fresh random draw per call: the bucket always lies in the
two-element window `[base, min(base + 1, 3)]`, and two calls drawing the same
bump value yield the same bucket. -/
theorem c9_bucket_window (h : Nat) (b b' : Fin 3) :
    (h % 4 ≤ mockIdx h b ∧ mockIdx h b ≤ min (h % 4 + 1) 3)
    ∧ (bumpVal b = bumpVal b' → mockStatusCode h b = mockStatusCode h b') := by
  have hb : bumpVal b ≤ 1 := by
    unfold bumpVal
    by_cases hv : b.val = 2 <;> simp [hv]
  constructor
  · unfold mockIdx
    omega
  · intro hbv
    unfold mockStatusCode mockIdx
    rw [hbv]

/-- C9 witness: hash value 5 with the two bump draws of value 0 (indices 0
and 1 of `[0, 0, 1]`) give the same bucket. -/
theorem c9_witness : mockStatusCode 5 0 = mockStatusCode 5 1 :=
  (c9_bucket_window 5 0 1).2 (by decide)

theorem ghnHandleDict_time (now : String) (code : Option Int)
    (payload : Option GhnPayload) (message : Option String) :
    (ghnHandleDict now code payload message).time = none := by
  unfold ghnHandleDict
  by_cases h : code ≠ some 200
  · rw [if_pos h]; rfl
  · rw [if_neg h]
    cases payload with
    | none => rfl
    | some p =>
        show (match pySortedDesc ghnKey p.tracking_logs with
          | [] => ghnMockLatest now "no logs"
          | latest :: _ => ghnFromLog latest).time = none
        cases hps : pySortedDesc ghnKey p.tracking_logs with
        | nil => rfl
        | cons latest rest => rfl

theorem ghnHandleBody_time (now : String) (body : GhnBody) :
    (ghnHandleBody now body).time = none := by
  cases body with
  | empty => rfl
  | badJson => rfl
  | notDict => rfl
  | dict code payload message => exact ghnHandleDict_time now code payload message

/-- Every event `ghn.get_tracking` returns carries no `time` key. -/
theorem ghnGetTracking_time (now : String) (o : GhnOutcome) :
    (ghnGetTracking now o).time = none := by
  cases o with
  | exception name => rfl
  | http statusCode body =>
      simp only [ghnGetTracking]
      by_cases h1 :
          (decide (statusCode = 403) || decide (statusCode = 404) ||
            decide (statusCode = 429)) = true
      · rw [if_pos h1]; rfl
      · rw [if_neg h1]
        by_cases h2 : 400 ≤ statusCode
        · rw [if_pos h2]; rfl
        · rw [if_neg h2]
          exact ghnHandleBody_time now body

/-- C10: every event the GHN adapter returns (success or fallback) stores its
timestamp under the key `time_iso`, while `unify` reads the key `time`; the
resulting UnifiedEvent therefore always has `time_iso = none`, and any row the
subsequent store update touches gets `last_checkpoint_time = NULL` — a GHN
timestamp never reaches the stored `last_checkpoint_time`. -/
theorem c10_ghn_time_never_stored (now : String) (o : GhnOutcome)
    (tc : String) :
    (unify "ghn" tc (ghnGetTracking now o)).latest.time_iso = none
    ∧ ∀ (st : Store) (sid : Nat) (now2 : String),
        (((update_shipment_from_unified st sid
             (unify "ghn" tc (ghnGetTracking now o)) now2).2.filter
            (fun r => r.id == sid)).all
          (fun r => r.last_checkpoint_time == none)) = true := by
  have htime : (ghnGetTracking now o).time = none := ghnGetTracking_time now o
  have hunify : (unify "ghn" tc (ghnGetTracking now o)).latest.time_iso
      = (ghnGetTracking now o).time := rfl
  refine ⟨hunify.trans htime, ?_⟩
  intro st sid now2
  rw [List.all_eq_true]
  intro r hr
  rcases List.mem_filter.mp hr with ⟨hrmem, hrid⟩
  revert hrmem
  unfold update_shipment_from_unified
  cases hf : st.find? (fun r => r.id == sid) with
  | none =>
      intro hrmem
      have := List.find?_eq_none.mp hf r hrmem
      exact absurd hrid this
  | some before =>
      intro hrmem
      simp only at hrmem
      rcases List.mem_map.mp hrmem with ⟨s, _, rfl⟩
      by_cases hsid : (s.id == sid)
      · simp only [hsid, if_true, if_pos]
        rw [hunify.trans htime]
        rfl
      · exfalso
        rw [if_neg hsid] at hrid
        exact hsid hrid

/-- C1, counterexample: the incoming unified event equals the stored
`last_status` field-for-field, so the call returns `false` — but the
`UPDATE` still runs: `updated_at` is rewritten from `"u1"` to the fresh
timestamp `"u2"`, so the row does NOT stay unchanged. -/
theorem c1_counterexample :
    (update_shipment_from_unified
        [{ id := 1, label := "A", carrier := "ghn", tracking_code := "T",
           last_status_code := "DELIVERED", last_status_text := "ok",
           last_checkpoint_time := some "t1", last_location := some "HN",
           auto_poll := 1, created_at := "c", updated_at := "u1" }] 1
        { carrier := "ghn", tracking_code := "T",
          latest := { code := "DELIVERED", text := "ok",
                      location := some "HN", time_iso := some "t1",
                      raw := {} } } "u2").1 = false
    ∧ ((update_shipment_from_unified
        [{ id := 1, label := "A", carrier := "ghn", tracking_code := "T",
           last_status_code := "DELIVERED", last_status_text := "ok",
           last_checkpoint_time := some "t1", last_location := some "HN",
           auto_poll := 1, created_at := "c", updated_at := "u1" }] 1
        { carrier := "ghn", tracking_code := "T",
          latest := { code := "DELIVERED", text := "ok",
                      location := some "HN", time_iso := some "t1",
                      raw := {} } } "u2").2.map (fun r => r.updated_at)) = ["u2"]
    ∧ ("u2" : String) ≠ "u1" := by
  refine ⟨rfl, rfl, ?_⟩
  decide

/-- C1 (amended): `update_shipment_from_unified` returns `true` exactly when
at least one of the four fields code/text/time/location differs (field-wise)
from the stored `last_status`; but the `UPDATE` statement runs
unconditionally, so even on an unchanged status every matching row is
rewritten with the (equal) four fields and a bumped `updated_at`. -/
theorem c1_update_flag_and_unconditional_write (st : Store) (sid : Nat)
    (u : UnifiedTrack) (now : String) (before : Shipment)
    (hfind : st.find? (fun r => r.id == sid) = some before) :
    ((update_shipment_from_unified st sid u now).1 = true ↔
      ¬ (before.last_status_code = u.latest.code ∧
         before.last_status_text = u.latest.text ∧
         before.last_checkpoint_time = u.latest.time_iso ∧
         before.last_location = u.latest.location))
    ∧ (((update_shipment_from_unified st sid u now).2.filter
          (fun r => r.id == sid)).all
        (fun r => (r.last_status_code == u.latest.code)
          && (r.last_status_text == u.latest.text)
          && (r.last_checkpoint_time == u.latest.time_iso)
          && (r.last_location == u.latest.location)
          && (r.updated_at == now))) = true := by
  constructor
  · simp only [update_shipment_from_unified, hfind]
    simp only [Bool.or_eq_true, bne_iff_ne]
    constructor
    · intro hx hall
      rcases hall with ⟨h1, h2, h3, h4⟩
      rcases hx with ((hx | hx) | hx) | hx
      · exact hx h1
      · exact hx h2
      · exact hx h3
      · exact hx h4
    · intro hx
      by_contra hno
      push_neg at hno
      rcases hno with ⟨⟨⟨h1, h2⟩, h3⟩, h4⟩
      exact hx ⟨h1, h2, h3, h4⟩
  · rw [List.all_eq_true]
    intro r hr
    rcases List.mem_filter.mp hr with ⟨hrmem, hrid⟩
    revert hrmem
    simp only [update_shipment_from_unified, hfind]
    intro hrmem
    rcases List.mem_map.mp hrmem with ⟨s, _, rfl⟩
    by_cases hsid : (s.id == sid)
    · rw [if_pos hsid]
      simp
    · exfalso
      rw [if_neg hsid] at hrid
      exact hsid hrid

/-- C1 witness: a stored row whose incoming event differs only in the
location field: the call reports `changed = true` and rewrites the row. -/
theorem c1_witness :
    ((update_shipment_from_unified
        [{ id := 7, label := "B", carrier := "spx", tracking_code := "S",
           last_status_code := "IN_TRANSIT", last_status_text := "t",
           last_checkpoint_time := none, last_location := some "HN",
           auto_poll := 1, created_at := "c", updated_at := "u1" }] 7
        { carrier := "spx", tracking_code := "S",
          latest := { code := "IN_TRANSIT", text := "t", location := some "DN",
                      time_iso := none, raw := {} } } "u9").1 = true ↔
      ¬ (("IN_TRANSIT" : String) = "IN_TRANSIT" ∧ ("t" : String) = "t" ∧
         (none : Option String) = none ∧
         (some "HN" : Option String) = some "DN"))
    ∧ (((update_shipment_from_unified
        [{ id := 7, label := "B", carrier := "spx", tracking_code := "S",
           last_status_code := "IN_TRANSIT", last_status_text := "t",
           last_checkpoint_time := none, last_location := some "HN",
           auto_poll := 1, created_at := "c", updated_at := "u1" }] 7
        { carrier := "spx", tracking_code := "S",
          latest := { code := "IN_TRANSIT", text := "t", location := some "DN",
                      time_iso := none, raw := {} } } "u9").2.filter
          (fun r => r.id == 7)).all
        (fun r => (r.last_status_code == "IN_TRANSIT")
          && (r.last_status_text == "t")
          && (r.last_checkpoint_time == (none : Option String))
          && (r.last_location == some "DN")
          && (r.updated_at == "u9"))) = true :=
  c1_update_flag_and_unconditional_write
    [{ id := 7, label := "B", carrier := "spx", tracking_code := "S",
       last_status_code := "IN_TRANSIT", last_status_text := "t",
       last_checkpoint_time := none, last_location := some "HN",
       auto_poll := 1, created_at := "c", updated_at := "u1" }] 7
    { carrier := "spx", tracking_code := "S",
      latest := { code := "IN_TRANSIT", text := "t", location := some "DN",
                  time_iso := none, raw := {} } } "u9" _ rfl

/-- The row `add_shipment` inserts when the tracking code is fresh. -/
def newRow (st : Store) (label carrier code : String) (unified : UnifiedTrack)
    (now : String) : Shipment :=
  { id := nextId st,
    label := if label = "" then "(Không tên)" else label,
    carrier := carrier,
    tracking_code := code,
    last_status_code := unified.latest.code,
    last_status_text := unified.latest.text,
    last_checkpoint_time := unified.latest.time_iso,
    last_location := unified.latest.location,
    auto_poll := 1,
    created_at := now,
    updated_at := now }

theorem add_shipment_of_mem (st : Store) (l c code : String)
    (u : UnifiedTrack) (n : String)
    (h : st.any (fun r => r.tracking_code == code) = true) :
    add_shipment st l c code u n = st := by
  unfold add_shipment
  rw [if_pos h]

theorem add_shipment_of_new (st : Store) (l c code : String)
    (u : UnifiedTrack) (n : String)
    (h : st.any (fun r => r.tracking_code == code) = false) :
    add_shipment st l c code u n = st ++ [newRow st l c code u n] := by
  unfold add_shipment
  rw [if_neg (by simp [h])]
  rfl

/-- C5: `tracking_code` is unique and `add_shipment` is idempotent on it:
an add whose code already exists leaves the table exactly unchanged, two adds
of the same code starting from a table without it leave exactly one row with
that code, and the code-uniqueness invariant is preserved by every add. -/
theorem c5_add_idempotent_unique (st : Store) (code : String)
    (l₁ c₁ l₂ c₂ : String) (u₁ u₂ : UnifiedTrack) (n₁ n₂ : String) :
    (st.countP (fun r => r.tracking_code == code) = 0 →
      ((add_shipment (add_shipment st l₁ c₁ code u₁ n₁) l₂ c₂ code u₂
          n₂).countP (fun r => r.tracking_code == code) = 1))
    ∧ (st.any (fun r => r.tracking_code == code) = true →
        add_shipment st l₁ c₁ code u₁ n₁ = st)
    ∧ ((st.map (fun r => r.tracking_code)).Nodup →
        ((add_shipment st l₁ c₁ code u₁ n₁).map
          (fun r => r.tracking_code)).Nodup) := by
  refine ⟨?_, ?_, ?_⟩
  · intro h0
    have hany : st.any (fun r => r.tracking_code == code) = false := by
      rw [Bool.eq_false_iff]
      intro hany
      rcases List.any_eq_true.mp hany with ⟨r, hr, hp⟩
      exact List.countP_eq_zero.mp h0 r hr hp
    rw [add_shipment_of_new st l₁ c₁ code u₁ n₁ hany]
    have hmem2 : (st ++ [newRow st l₁ c₁ code u₁ n₁]).any
        (fun r => r.tracking_code == code) = true := by
      rw [List.any_append]
      simp [newRow]
    rw [add_shipment_of_mem _ l₂ c₂ code u₂ n₂ hmem2]
    rw [List.countP_append]
    rw [List.countP_eq_zero.mpr (fun r hr => List.countP_eq_zero.mp h0 r hr)]
    simp [List.countP_cons, newRow]
  · intro hany
    exact add_shipment_of_mem st l₁ c₁ code u₁ n₁ hany
  · intro hnd
    by_cases hany : st.any (fun r => r.tracking_code == code) = true
    · rw [add_shipment_of_mem st l₁ c₁ code u₁ n₁ hany]
      exact hnd
    · rw [add_shipment_of_new st l₁ c₁ code u₁ n₁
        (Bool.eq_false_iff.mpr hany)]
      rw [List.map_append]
      refine List.Nodup.append hnd (List.nodup_singleton _) ?_
      intro a ha hb
      rcases List.mem_map.mp ha with ⟨r, hr, rfl⟩
      have hb' : r.tracking_code = (newRow st l₁ c₁ code u₁ n₁).tracking_code := by
        simpa using hb
      apply hany
      rw [List.any_eq_true]
      refine ⟨r, hr, ?_⟩
      simp [hb', newRow]

/-- C5 witness: two adds of the code `"T"` into an empty table leave one row;
an add of the already-present code `"T"` is a no-op. -/
theorem c5_witness :
    ((add_shipment (add_shipment [] "a" "ghn" "T"
        { carrier := "ghn", tracking_code := "T",
          latest := { code := "DELIVERED", text := "x", location := none,
                      time_iso := none, raw := {} } } "n1") "b" "spx" "T"
        { carrier := "spx", tracking_code := "T",
          latest := { code := "IN_TRANSIT", text := "y", location := none,
                      time_iso := none, raw := {} } } "n2").countP
      (fun r => r.tracking_code == "T") = 1)
    ∧ (add_shipment
        [{ id := 1, label := "A", carrier := "ghn", tracking_code := "T",
           last_status_code := "", last_status_text := "",
           last_checkpoint_time := none, last_location := none,
           auto_poll := 1, created_at := "c", updated_at := "u" }] "a" "ghn"
        "T" { carrier := "ghn", tracking_code := "T",
              latest := { code := "DELIVERED", text := "x", location := none,
                          time_iso := none, raw := {} } } "n1" =
        [{ id := 1, label := "A", carrier := "ghn", tracking_code := "T",
           last_status_code := "", last_status_text := "",
           last_checkpoint_time := none, last_location := none,
           auto_poll := 1, created_at := "c", updated_at := "u" }]) :=
  ⟨(c5_add_idempotent_unique [] "T" "a" "ghn" "b" "spx"
      { carrier := "ghn", tracking_code := "T",
        latest := { code := "DELIVERED", text := "x", location := none,
                    time_iso := none, raw := {} } }
      { carrier := "spx", tracking_code := "T",
        latest := { code := "IN_TRANSIT", text := "y", location := none,
                    time_iso := none, raw := {} } } "n1" "n2").1 rfl,
   (c5_add_idempotent_unique
      [{ id := 1, label := "A", carrier := "ghn", tracking_code := "T",
         last_status_code := "", last_status_text := "",
         last_checkpoint_time := none, last_location := none,
         auto_poll := 1, created_at := "c", updated_at := "u" }] "T" "a" "ghn"
      "b" "spx"
      { carrier := "ghn", tracking_code := "T",
        latest := { code := "DELIVERED", text := "x", location := none,
                    time_iso := none, raw := {} } }
      { carrier := "spx", tracking_code := "T",
        latest := { code := "IN_TRANSIT", text := "y", location := none,
                    time_iso := none, raw := {} } } "n1" "n2").2.1 rfl⟩

/-- C7, counterexample: a response with the non-2xx status 301 whose body is
a success-shaped GHN payload is parsed normally — the adapter returns the
real `delivering` event, not the synthetic `delivered` fallback.  Only
statuses ≥ 400 (and body failures) trigger the fallback, not every non-2xx
status as the claim states. -/
theorem c7_counterexample :
    (ghnGetTracking "N"
        (GhnOutcome.http 301
          (GhnBody.dict (some 200)
            (some { tracking_logs :=
              [{ action_at := some "2025-01-01T00:00:00Z",
                 status := some "delivering" }] }) none))).code
      = some "delivering"
    ∧ (ghnGetTracking "N"
        (GhnOutcome.http 301
          (GhnBody.dict (some 200)
            (some { tracking_logs :=
              [{ action_at := some "2025-01-01T00:00:00Z",
                 status := some "delivering" }] }) none))).code
      ≠ some "delivered"
    ∧ (ghnMockLatest "N" "HTTP 301").code = some "delivered" := by
  refine ⟨rfl, ?_, rfl⟩
  decide

/-- C7 (amended): the GHN adapter never raises (it is a total function of the
request outcome) and returns the synthetic `_mock_latest` "delivered"
fallback on every failure outcome: a raised exception (timeout, transport
error, malformed JSON), an HTTP status of 400 or above (including 403, 404
and 429), an empty body, a non-dict or non-success JSON payload, or an empty
tracking-log list. -/
theorem c7_fallback_on_failure (now : String) (o : GhnOutcome)
    (hfail : ghnFailure o = true) :
    ∃ reason, ghnGetTracking now o = ghnMockLatest now reason := by
  cases o with
  | exception name => exact ⟨"exception: " ++ name, rfl⟩
  | http statusCode body =>
      simp only [ghnGetTracking]
      by_cases h1 :
          (decide (statusCode = 403) || decide (statusCode = 404) ||
            decide (statusCode = 429)) = true
      · rw [if_pos h1]
        exact ⟨"HTTP " ++ toString statusCode, rfl⟩
      · rw [if_neg h1]
        by_cases h2 : 400 ≤ statusCode
        · rw [if_pos h2]
          exact ⟨"HTTP " ++ toString statusCode, rfl⟩
        · rw [if_neg h2]
          have hbody : ghnBodyFailure body = true := by
            simp only [ghnFailure] at hfail
            rw [Bool.or_eq_true] at hfail
            rcases hfail with hx | hx
            · exact absurd (of_decide_eq_true hx) h2
            · exact hx
          cases body with
          | empty => exact ⟨"no content", rfl⟩
          | badJson => exact ⟨"exception: JSONDecodeError", rfl⟩
          | notDict => exact ⟨"no data", rfl⟩
          | dict code payload message =>
              simp only [ghnHandleBody, ghnHandleDict]
              by_cases h3 : code = some 200
              · rw [if_neg (by simp [h3])]
                cases payload with
                | none => exact ⟨message.getD "no data", rfl⟩
                | some p =>
                    have hlogs : p.tracking_logs = [] := by
                      simpa [ghnBodyFailure, ghnDictFailure, h3,
                        List.isEmpty_iff] using hbody
                    refine ⟨"no logs", ?_⟩
                    show (match pySortedDesc ghnKey p.tracking_logs with
                      | [] => ghnMockLatest now "no logs"
                      | latest :: _ => ghnFromLog latest) =
                        ghnMockLatest now "no logs"
                    rw [hlogs]
                    rfl
              · rw [if_pos (by simp [h3])]
                exact ⟨message.getD "no data", rfl⟩

/-- C7 witness: a timeout-style exception outcome maps to the fallback. -/
theorem c7_witness :
    ∃ reason, ghnGetTracking "N" (GhnOutcome.exception "Timeout") =
      ghnMockLatest "N" reason :=
  c7_fallback_on_failure "N" (GhnOutcome.exception "Timeout") rfl

/-! ### Lemmas about `update_shipment_from_unified` and the batch loop -/

theorem find?_map_id_preserving (i : Nat) (g : Shipment → Shipment)
    (hid : ∀ r, (g r).id = r.id) (hfix : ∀ r, r.id = i → g r = r) :
    ∀ st : List Shipment,
      (st.map g).find? (fun r => r.id == i) =
        st.find? (fun r => r.id == i) := by
  intro st
  induction st with
  | nil => rfl
  | cons a as ih =>
      rw [List.map_cons, List.find?_cons, List.find?_cons, hid a]
      cases hpa : (a.id == i) with
      | false => simpa using ih
      | true =>
          have hfa : g a = a := hfix a (eq_of_beq hpa)
          simp [hfa]

theorem update_snd_find?_ne (st : Store) (sid : Nat) (u : UnifiedTrack)
    (now : String) (i : Nat) (hne : i ≠ sid) :
    ((update_shipment_from_unified st sid u now).2).find?
        (fun r => r.id == i) =
      st.find? (fun r => r.id == i) := by
  unfold update_shipment_from_unified
  cases hf : st.find? (fun r => r.id == sid) with
  | none => rfl
  | some before =>
      apply find?_map_id_preserving i
      · intro r
        by_cases h : (r.id == sid) <;> simp [h]
      · intro r hr
        have hb : (r.id == sid) = false := by
          simp only [hr]
          simpa using fun he => hne he
        simp [hb]

theorem update_fst_congr (st st' : Store) (sid : Nat) (u : UnifiedTrack)
    (now : String)
    (h : st.find? (fun r => r.id == sid) = st'.find? (fun r => r.id == sid)) :
    (update_shipment_from_unified st sid u now).1 =
      (update_shipment_from_unified st' sid u now).1 := by
  unfold update_shipment_from_unified
  rw [h]
  cases st'.find? (fun r => r.id == sid) <;> rfl

theorem refreshOne_fst (fetch : Nat → Option VendorDict) (now : String)
    (cur st0 : Store) (r : Shipment)
    (h : cur.find? (fun s => s.id == r.id) =
      st0.find? (fun s => s.id == r.id)) :
    (refreshOne fetch now cur r).1 = itemChanged fetch now st0 r := by
  unfold refreshOne itemChanged
  by_cases hc : (r.carrier == "jnt")
  · rw [if_pos hc, if_pos hc]
  · rw [if_neg hc, if_neg hc]
    cases hfv : fetch r.id with
    | none => rfl
    | some ve => exact update_fst_congr cur st0 r.id _ now h

theorem refreshOne_snd_ne (fetch : Nat → Option VendorDict) (now : String)
    (cur : Store) (r : Shipment) (i : Nat) (hne : r.id ≠ i) :
    ((refreshOne fetch now cur r).2).find? (fun s => s.id == i) =
      cur.find? (fun s => s.id == i) := by
  unfold refreshOne
  by_cases hc : (r.carrier == "jnt")
  · rw [if_pos hc]
  · rw [if_neg hc]
    cases hfv : fetch r.id with
    | none => rfl
    | some ve => exact update_snd_find?_ne cur r.id _ now i (Ne.symm hne)

theorem refreshOne_snd_skip (fetch : Nat → Option VendorDict) (now : String)
    (cur : Store) (r : Shipment)
    (h : (r.carrier == "jnt") = true ∨ fetch r.id = none) :
    (refreshOne fetch now cur r).2 = cur := by
  unfold refreshOne
  rcases h with h | h
  · rw [if_pos h]
  · by_cases hc : (r.carrier == "jnt")
    · rw [if_pos hc]
    · rw [if_neg hc, h]

/-- Invariant of the `refresh_all_job` fold: with pairwise-distinct row ids
and a working table that agrees with the reference table `st0` at every row
still to process, the loop's count adds exactly the per-row changed flags
computed against `st0`, and rows it never updates keep their `find?` image. -/
theorem fold_refresh_spec (fetch : Nat → Option VendorDict) (now : String)
    (st0 : Store) :
    ∀ (rows : List Shipment) (cnt : Nat) (cur : Store),
      (rows.map (fun r => r.id)).Nodup →
      (∀ r ∈ rows, cur.find? (fun s => s.id == r.id) =
        st0.find? (fun s => s.id == r.id)) →
      ((rows.foldl (refreshStep fetch now) (cnt, cur)).1 =
        cnt + rows.countP (itemChanged fetch now st0)) ∧
      (∀ i : Nat,
        (∀ r ∈ rows,
          r.id ≠ i ∨ (r.carrier == "jnt") = true ∨ fetch r.id = none) →
        ((rows.foldl (refreshStep fetch now) (cnt, cur)).2).find?
            (fun s => s.id == i) =
          cur.find? (fun s => s.id == i)) := by
  intro rows
  induction rows with
  | nil =>
      intro cnt cur _ _
      exact ⟨by simp, fun i _ => rfl⟩
  | cons r rows ih =>
      intro cnt cur hnd hcur
      rw [List.map_cons, List.nodup_cons] at hnd
      obtain ⟨hnin, hndtail⟩ := hnd
      have hstep1 : (refreshOne fetch now cur r).1 =
          itemChanged fetch now st0 r :=
        refreshOne_fst fetch now cur st0 r (hcur r (List.mem_cons_self r rows))
      have hcur' : ∀ r' ∈ rows,
          ((refreshOne fetch now cur r).2).find? (fun s => s.id == r'.id) =
            st0.find? (fun s => s.id == r'.id) := by
        intro r' hr'
        have hne : r.id ≠ r'.id := fun he =>
          hnin (he ▸ List.mem_map_of_mem (fun s => s.id) hr')
        rw [refreshOne_snd_ne fetch now cur r r'.id hne]
        exact hcur r' (List.mem_cons_of_mem r hr')
      obtain ⟨ihc, ihf⟩ :=
        ih (cnt + if (refreshOne fetch now cur r).1 then 1 else 0)
          (refreshOne fetch now cur r).2 hndtail hcur'
      have hstepacc : refreshStep fetch now (cnt, cur) r =
          (cnt + (if (refreshOne fetch now cur r).1 then 1 else 0),
            (refreshOne fetch now cur r).2) := rfl
      constructor
      · rw [List.foldl_cons, hstepacc, ihc, List.countP_cons, hstep1]
        cases itemChanged fetch now st0 r
        · simp
        · simp
          omega
      · intro i hall
        rw [List.foldl_cons, hstepacc,
          ihf i (fun r' hr' => hall r' (List.mem_cons_of_mem r hr'))]
        rcases hall r (List.mem_cons_self r rows) with hne | hskip
        · exact refreshOne_snd_ne fetch now cur r i hne
        · rw [refreshOne_snd_skip fetch now cur r hskip]

/-- C8: `refresh_all_job` visits exactly the `auto_poll = 1` rows; each
visited row's contribution to the returned count is the changed flag its own
update would report against the original table (so a J&T row or a row whose
adapter raises contributes 0 and never aborts the loop); and every row that
is not an `auto_poll = 1` row — and every visited row that is skipped (J&T)
or whose adapter fails — is left in the table unchanged. -/
theorem c8_refresh_all_batch (fetch : Nat → Option VendorDict) (now : String)
    (st : Store) (hnd : (st.map (fun r => r.id)).Nodup) :
    ((refresh_all_job fetch now st).1 =
      (st.filter (fun r => r.auto_poll == 1)).countP
        (itemChanged fetch now st))
    ∧ (∀ s ∈ st, (s.auto_poll ≠ 1 ∨ s.carrier = "jnt" ∨ fetch s.id = none) →
        ((refresh_all_job fetch now st).2).find? (fun r => r.id == s.id) =
          some s) := by
  have hndrows :
      ((st.filter (fun r => r.auto_poll == 1)).map (fun r => r.id)).Nodup :=
    hnd.sublist ((List.filter_sublist st).map (fun r => r.id))
  obtain ⟨hc, hf⟩ := fold_refresh_spec fetch now st
    (st.filter (fun r => r.auto_poll == 1)) 0 st hndrows (fun r _ => rfl)
  constructor
  · simpa [refresh_all_job] using hc
  · intro s hs hcase
    have hfind : st.find? (fun r => r.id == s.id) = some s := by
      have hex : (st.find? (fun r => r.id == s.id)).isSome :=
        List.find?_isSome.mpr ⟨s, hs, by simp⟩
      obtain ⟨a, ha⟩ := Option.isSome_iff_exists.mp hex
      have hamem : a ∈ st := List.mem_of_find?_eq_some ha
      have hasat : a.id = s.id := by
        have hp := List.find?_some ha
        simpa using hp
      have : a = s := List.inj_on_of_nodup_map hnd hamem hs hasat
      rw [ha, this]
    have hall : ∀ r ∈ st.filter (fun r => r.auto_poll == 1),
        r.id ≠ s.id ∨ (r.carrier == "jnt") = true ∨ fetch r.id = none := by
      intro r hr
      by_cases hid : r.id = s.id
      · have hrmem : r ∈ st := List.mem_of_mem_filter hr
        have hrs : r = s := List.inj_on_of_nodup_map hnd hrmem hs hid
        rcases hcase with h | h | h
        · exfalso
          apply h
          have := List.of_mem_filter hr
          have : r.auto_poll = 1 := eq_of_beq this
          rw [← hrs]
          exact this
        · right; left
          rw [hrs]
          simp [h]
        · right; right
          rw [hrs]
          exact h
      · exact Or.inl hid
    have := hf s.id hall
    calc ((refresh_all_job fetch now st).2).find? (fun r => r.id == s.id)
        = st.find? (fun r => r.id == s.id) := this
      _ = some s := hfind

/-- C8 witness: a single auto-polled shipment whose adapter raises: the batch
completes and reports zero changed shipments. -/
theorem c8_witness :
    (refresh_all_job (fun _ => none) "now"
      [{ id := 1, label := "A", carrier := "ghn", tracking_code := "T",
         last_status_code := "", last_status_text := "",
         last_checkpoint_time := none, last_location := none, auto_poll := 1,
         created_at := "c", updated_at := "u" }]).1 = 0 :=
  ((c8_refresh_all_batch (fun _ => none) "now"
      [{ id := 1, label := "A", carrier := "ghn", tracking_code := "T",
         last_status_code := "", last_status_text := "",
         last_checkpoint_time := none, last_location := none, auto_poll := 1,
         created_at := "c", updated_at := "u" }] (by decide)).1).trans
    (by decide)

end ShipTrack
